import Mathlib

/-!
A shallow embedding of the SIL verifier in lib/SIL/Verifier.cpp.

The verifier walks a function's instructions and enforces per-kind type
invariants with assertions over an opaque type handle (SILType).  We embed
SILType as an AST type together with an address qualifier, each visitXInst
method as a function returning an error monad value (an assertion failure
becomes a TypeInvariantViolation-style error, llvm_unreachable becomes an
UnrecoverableShape-style error), and the generic block-position check in
SILVerifier::visit as a predicate on an instruction index inside its block.
-/

/-- AST-level types, as seen through the shape queries the verifier uses
(is function / polymorphic function / tuple / metatype / archetype /
builtin integer, reference semantics, address-only, existential). -/
inductive AstType where
  | builtinInteger (width : Nat)
  | functionTy (input result : AstType)
  | polyFunctionTy (input result : AstType)
  | tupleTy (fieldCount : Nat)
  | metaTy (instanceTy : AstType)
  | archetypeTy (id : Nat)
  | classTy (id : Nat)
  | protocolTy (id : Nat)
  | rawPointerTy
deriving DecidableEq, Repr

/-- Type::hasReferenceSemantics at the AST level: class types are the
reference-semantics types of the model. -/
def AstType.refSemantics : AstType → Bool
  | .classTy _ => true
  | _ => false

/-- Address-only types of the model: archetypes and existentials. -/
def AstType.addressOnly : AstType → Bool
  | .archetypeTy _ => true
  | .protocolTy _ => true
  | _ => false

/-- isExistentialType at the AST level. -/
def AstType.existential : AstType → Bool
  | .protocolTy _ => true
  | _ => false

/-- Type->is\<FunctionType\> at the AST level. -/
def AstType.isFunctionTy : AstType → Bool
  | .functionTy _ _ => true
  | _ => false

/-- Type->is\<ArchetypeType\> at the AST level. -/
def AstType.isArchetypeTy : AstType → Bool
  | .archetypeTy _ => true
  | _ => false

/-- SILType: an opaque type handle, an AST type plus the address
qualifier.  Two handles are equal iff they agree on both. -/
structure SILType where
  ast : AstType
  addr : Bool
deriving DecidableEq, Repr

/-- SILType::isAddress. -/
def SILType.isAddress (t : SILType) : Bool := t.addr

/-- SILType::hasReferenceSemantics: a fact of the underlying AST type. -/
def SILType.hasReferenceSemantics (t : SILType) : Bool := t.ast.refSemantics

/-- SILType::isAddressOnly: a fact of the underlying AST type. -/
def SILType.isAddressOnly (t : SILType) : Bool := t.ast.addressOnly

/-- SILType::isExistentialType: a fact of the underlying AST type. -/
def SILType.isExistentialType (t : SILType) : Bool := t.ast.existential

/-- SILType::getObjectType: the same type with the address qualifier
stripped (the pointee of an address). -/
def SILType.getObjectType (t : SILType) : SILType := ⟨t.ast, false⟩

/-- SILType::getSwiftType: the underlying AST type. -/
def SILType.getSwiftType (t : SILType) : AstType := t.ast

/-- SILType::is\<FunctionType\>: shape query on the underlying AST type. -/
def SILType.isFunctionType (t : SILType) : Bool := t.ast.isFunctionTy

/-- SILType::is\<AnyFunctionType\>: concrete or polymorphic function. -/
def SILType.isAnyFunctionType (t : SILType) : Bool :=
  match t.ast with
  | .functionTy _ _ => true
  | .polyFunctionTy _ _ => true
  | _ => false

/-- SILType::is\<PolymorphicFunctionType\>. -/
def SILType.isPolyFunctionType (t : SILType) : Bool :=
  match t.ast with
  | .polyFunctionTy _ _ => true
  | _ => false

/-- SILType::is\<ArchetypeType\>. -/
def SILType.isArchetypeType (t : SILType) : Bool := t.ast.isArchetypeTy

/-- SILType::is\<MetaTypeType\>. -/
def SILType.isMetaTypeType (t : SILType) : Bool :=
  match t.ast with
  | .metaTy _ => true
  | _ => false

/-- SILType::getAs\<FunctionType\>: the input and result of a concrete
function type, when the underlying type is one. -/
def SILType.getAsFunctionType (t : SILType) : Option (AstType × AstType) :=
  match t.ast with
  | .functionTy i r => some (i, r)
  | _ => none

/-- SILType::getAs\<MetaTypeType\>: the instance type of a metatype, when
the underlying type is one. -/
def SILType.getAsMetaTypeType (t : SILType) : Option AstType :=
  match t.ast with
  | .metaTy i => some i
  | _ => none

/-- A SIL Value: the verifier only ever reads its type. -/
structure Value where
  type : SILType
deriving DecidableEq, Repr

/-- Verification outcomes other than success, following the failure
taxonomy: a broken block-position invariant, an ordinary per-kind type
invariant violation (a failed assert), and the unrecoverable internal
error (llvm_unreachable / an unresolvable callable signature). -/
inductive VerifyError where
  | malformedBlock
  | typeViolation
  | unrecoverableShape
deriving DecidableEq, Repr

/-- One assert of a visit method: succeed when the condition holds,
report a type-invariant violation otherwise. -/
def silAssert (p : Prop) [Decidable p] : Except VerifyError Unit :=
  if p then .ok () else .error .typeViolation

/-- The Callable Signature of a function type: ordered input types plus
one result type (SILFunctionTypeInfo). -/
structure SILFunctionTypeInfo where
  inputTypes : List SILType
  resultType : SILType
deriving DecidableEq, Repr

/-- ApplyInst: a callee value, the argument values, and the result type
of the instruction. -/
structure ApplyInst where
  callee : Value
  arguments : List Value
  type : SILType
deriving DecidableEq, Repr

/-- The argument-checking loop of visitApplyInst: position by position,
each argument's type must equal the corresponding input type. -/
def checkArgTypes : List Value → List SILType → Except VerifyError Unit
  | [], [] => .ok ()
  | a :: args, t :: ts =>
    if a.type = t then checkArgTypes args ts else .error .typeViolation
  | _, _ => .error .typeViolation

/-- Modelled from the spec: the behaviour of getFunctionTypeInfo when the
Function Signature Provider cannot resolve the callee's signature is not
under src/ (Verifier.cpp dereferences the returned pointer without a
check); the spec states that an unresolvable callable signature is a
fatal, unrecoverable verifier error distinct from an ordinary invariant
violation. -/
def callableSignatureUnresolved : Except VerifyError Unit :=
  .error .unrecoverableShape

/-- SILVerifier::visitApplyInst.  The Function Signature Provider
(Module::getFunctionTypeInfo) is passed as a function. -/
def visitApplyInst (getFunctionTypeInfo : SILType → Option SILFunctionTypeInfo)
    (ai : ApplyInst) : Except VerifyError Unit := do
  let calleeTy := ai.callee.type
  silAssert (calleeTy.isAddress = false)
  silAssert (calleeTy.isFunctionType = true)
  match getFunctionTypeInfo calleeTy with
  | none => callableSignatureUnresolved
  | some ti => do
    silAssert (ai.arguments.length = ti.inputTypes.length)
    checkArgTypes ai.arguments ti.inputTypes
    silAssert (ai.type = ti.resultType)

/-- AllocVarInst: carries its result type. -/
structure AllocVarInst where
  type : SILType
deriving DecidableEq, Repr

/-- SILVerifier::visitAllocVarInst. -/
def visitAllocVarInst (ai : AllocVarInst) : Except VerifyError Unit :=
  silAssert (ai.type.isAddress = true)

/-- AllocRefInst: carries its result type. -/
structure AllocRefInst where
  type : SILType
deriving DecidableEq, Repr

/-- SILVerifier::visitAllocRefInst: one assert of a conjunction. -/
def visitAllocRefInst (ai : AllocRefInst) : Except VerifyError Unit :=
  silAssert (ai.type.hasReferenceSemantics = true ∧ ai.type.isAddress = false)

/-- LoadInst: the address operand and the result type. -/
structure LoadInst where
  lvalue : Value
  type : SILType
deriving DecidableEq, Repr

/-- SILVerifier::visitLoadInst. -/
def visitLoadInst (li : LoadInst) : Except VerifyError Unit := do
  silAssert (li.type.isAddress = false)
  silAssert (li.lvalue.type.isAddress = true)
  silAssert (li.lvalue.type.getObjectType = li.type)

/-- StoreInst: the stored value and the destination address. -/
structure StoreInst where
  src : Value
  dest : Value
deriving DecidableEq, Repr

/-- SILVerifier::visitStoreInst. -/
def visitStoreInst (si : StoreInst) : Except VerifyError Unit := do
  silAssert (si.src.type.isAddress = false)
  silAssert (si.dest.type.isAddress = true)
  silAssert (si.dest.type.getObjectType = si.src.type)

/-- RetainInst: one operand. -/
structure RetainInst where
  operand : Value
deriving DecidableEq, Repr

/-- SILVerifier::visitRetainInst. -/
def visitRetainInst (ri : RetainInst) : Except VerifyError Unit := do
  silAssert (ri.operand.type.isAddress = false)
  silAssert (ri.operand.type.hasReferenceSemantics = true)

/-- ReleaseInst: one operand. -/
structure ReleaseInst where
  operand : Value
deriving DecidableEq, Repr

/-- SILVerifier::visitReleaseInst. -/
def visitReleaseInst (ri : ReleaseInst) : Except VerifyError Unit := do
  silAssert (ri.operand.type.isAddress = false)
  silAssert (ri.operand.type.hasReferenceSemantics = true)

/-- DeallocRefInst: one operand. -/
structure DeallocRefInst where
  operand : Value
deriving DecidableEq, Repr

/-- SILVerifier::visitDeallocRefInst. -/
def visitDeallocRefInst (di : DeallocRefInst) : Except VerifyError Unit := do
  silAssert (di.operand.type.isAddress = false)
  silAssert (di.operand.type.hasReferenceSemantics = true)

/-- ArchetypeToSuperInst: the operand and the result type. -/
structure ArchetypeToSuperInst where
  operand : Value
  type : SILType
deriving DecidableEq, Repr

/-- SILVerifier::visitArchetypeToSuperInst.  Note: the first assert
checks isAddressOnly although its message reads
"archetype_to_super operand must be an address". -/
def visitArchetypeToSuperInst (asi : ArchetypeToSuperInst) :
    Except VerifyError Unit := do
  silAssert (asi.operand.type.isAddressOnly = true)
  silAssert (asi.operand.type.isArchetypeType = true)
  silAssert (asi.type.hasReferenceSemantics = true)

/-- SuperToArchetypeInst: the source value and the destination operand. -/
structure SuperToArchetypeInst where
  srcBase : Value
  destArchetypeAddress : Value
deriving DecidableEq, Repr

/-- SILVerifier::visitSuperToArchetypeInst.  Note: the second assert
checks only is\<ArchetypeType\> although its message reads
"super_to_archetype dest must be an archetype address". -/
def visitSuperToArchetypeInst (sai : SuperToArchetypeInst) :
    Except VerifyError Unit := do
  silAssert (sai.srcBase.type.hasReferenceSemantics = true)
  silAssert (sai.destArchetypeAddress.type.isArchetypeType = true)

/-- ReturnInst: its return value, null modelled as none. -/
structure ReturnInst where
  returnValue : Option Value
deriving DecidableEq, Repr

/-- SILVerifier::visitReturnInst: only the null check; the cross-check of
the returned value's type against the function's result type is commented
out in the source. -/
def visitReturnInst (ri : ReturnInst) : Except VerifyError Unit :=
  silAssert (ri.returnValue.isSome = true)

/-- ArchetypeMethodInst: the operand and the instruction's type 0. -/
structure ArchetypeMethodInst where
  operand : Value
  type0 : SILType
deriving DecidableEq, Repr

/-- SILVerifier::visitArchetypeMethodInst.  getAs\<FunctionType\>
returning null makes the first assert fail; an operand that is neither an
address nor a metatype reaches llvm_unreachable. -/
def visitArchetypeMethodInst (ami : ArchetypeMethodInst) :
    Except VerifyError Unit :=
  match ami.type0.getAsFunctionType with
  | none => .error .typeViolation
  | some (methodInput, methodResult) => do
    let operandType := ami.operand.type
    silAssert (methodInput = operandType.getSwiftType)
    silAssert (methodResult.isFunctionTy = true)
    if operandType.isAddress then
      silAssert (operandType.isArchetypeType = true)
    else
      match operandType.getAsMetaTypeType with
      | some instanceTy => silAssert (instanceTy.isArchetypeTy = true)
      | none => .error .unrecoverableShape

instance : DecidableEq (Except VerifyError Unit) := fun x y =>
  match x, y with
  | .ok (), .ok () => isTrue rfl
  | .ok (), .error _ => isFalse (by simp)
  | .error _, .ok () => isFalse (by simp)
  | .error e, .error f =>
    if h : e = f then isTrue (by rw [h]) else isFalse (by simp [h])

/-- The instruction kinds of the verifier's rule table, one per
visitXInst method of the source. -/
inductive InstKind where
  | allocVar
  | allocRef
  | apply
  | constantRef
  | integerLiteral
  | load
  | store
  | copyAddr
  | zeroAddr
  | zeroValue
  | specialize
  | tuple
  | metatype
  | associatedMetatype
  | retain
  | release
  | deallocVar
  | deallocRef
  | destroyAddr
  | indexAddr
  | extract
  | elementAddr
  | refElementAddr
  | archetypeMethod
  | protocolMethod
  | projectExistential
  | initExistential
  | deinitExistential
  | archetypeToSuper
  | superToArchetype
  | downcast
  | integerValue
  | returnInst
  | branch
  | condBranch
deriving DecidableEq, Repr

/-- Modelled from the spec: which instruction classes derive from
TermInst is declared in headers outside src/; the spec lists
unconditional branch, conditional branch and return as the
control-flow-terminating kinds (isa\<TermInst\>). -/
def InstKind.isTerminator : InstKind → Bool
  | .returnInst => true
  | .branch => true
  | .condBranch => true
  | _ => false

/-- One assert of the generic block-position check: succeed when the
condition holds, report a malformed block otherwise. -/
def silAssertPos (p : Prop) [Decidable p] : Except VerifyError Unit :=
  if p then .ok () else .error .malformedBlock

/-- The generic block-position check at the top of SILVerifier::visit,
for the instruction at index i of its block: a non-terminator must sit in
a non-empty block and must not be its last instruction; a terminator must
be exactly the last instruction. -/
def checkPosition (bb : List InstKind) (i : Fin bb.length) :
    Except VerifyError Unit :=
  if (bb.get i).isTerminator = false then do
    silAssertPos (bb.length ≠ 0)
    silAssertPos (i.val + 1 ≠ bb.length)
  else
    silAssertPos (i.val + 1 = bb.length)

/-- The position checks of a whole block: every instruction of the block
passes the generic check. -/
def blockPositionsOk (bb : List InstKind) : Prop :=
  ∀ i : Fin bb.length, checkPosition bb i = .ok ()

instance (bb : List InstKind) : Decidable (blockPositionsOk bb) := by
  unfold blockPositionsOk; infer_instance

lemma silAssert_ok (p : Prop) [Decidable p] : silAssert p = .ok () ↔ p := by
  by_cases h : p <;> simp [silAssert, h]

lemma silAssertPos_ok (p : Prop) [Decidable p] :
    silAssertPos p = .ok () ↔ p := by
  by_cases h : p <;> simp [silAssertPos, h]

lemma exceptBind_ok (x : Except VerifyError Unit)
    (f : Unit → Except VerifyError Unit) :
    (x >>= f) = .ok () ↔ (x = .ok () ∧ f () = .ok ()) := by
  cases x with
  | ok a => cases a; simp [Bind.bind, Except.bind]
  | error e => simp [Bind.bind, Except.bind]

lemma visitLoadInst_ok (li : LoadInst) :
    visitLoadInst li = .ok () ↔
      (li.type.isAddress = false ∧ li.lvalue.type.isAddress = true ∧
       li.lvalue.type.getObjectType = li.type) := by
  simp [visitLoadInst, exceptBind_ok, silAssert_ok]

lemma visitStoreInst_ok (si : StoreInst) :
    visitStoreInst si = .ok () ↔
      (si.src.type.isAddress = false ∧ si.dest.type.isAddress = true ∧
       si.dest.type.getObjectType = si.src.type) := by
  simp [visitStoreInst, exceptBind_ok, silAssert_ok]

lemma getObjectType_isAddress (t : SILType) :
    t.getObjectType.isAddress = false := rfl

/-- C10: visitRetainInst and visitReleaseInst are extensionally equal:
on every operand they return the same verification outcome. -/
theorem claim_C10_retain_release_same_predicate :
    ∀ v : Value, visitRetainInst ⟨v⟩ = visitReleaseInst ⟨v⟩ := fun _ => rfl

/-- C9: retain, release, alloc_ref (on its result type) and dealloc_ref
each accept a type exactly when it has reference semantics and is not an
address; a type that is an address or lacks reference semantics is
rejected by all four. -/
theorem claim_C9_reference_semantics_exclusivity :
    ∀ t : SILType,
      (visitRetainInst ⟨⟨t⟩⟩ = .ok () ↔
        (t.hasReferenceSemantics = true ∧ t.isAddress = false)) ∧
      (visitReleaseInst ⟨⟨t⟩⟩ = .ok () ↔
        (t.hasReferenceSemantics = true ∧ t.isAddress = false)) ∧
      (visitAllocRefInst ⟨t⟩ = .ok () ↔
        (t.hasReferenceSemantics = true ∧ t.isAddress = false)) ∧
      (visitDeallocRefInst ⟨⟨t⟩⟩ = .ok () ↔
        (t.hasReferenceSemantics = true ∧ t.isAddress = false)) ∧
      ((t.isAddress = true ∨ t.hasReferenceSemantics = false) →
        (visitRetainInst ⟨⟨t⟩⟩ ≠ .ok () ∧ visitReleaseInst ⟨⟨t⟩⟩ ≠ .ok () ∧
         visitAllocRefInst ⟨t⟩ ≠ .ok () ∧
         visitDeallocRefInst ⟨⟨t⟩⟩ ≠ .ok ())) := by
  intro t
  have hr : visitRetainInst ⟨⟨t⟩⟩ = .ok () ↔
      (t.hasReferenceSemantics = true ∧ t.isAddress = false) := by
    simp [visitRetainInst, exceptBind_ok, silAssert_ok, and_comm]
  have hl : visitReleaseInst ⟨⟨t⟩⟩ = .ok () ↔
      (t.hasReferenceSemantics = true ∧ t.isAddress = false) := by
    simp [visitReleaseInst, exceptBind_ok, silAssert_ok, and_comm]
  have ha : visitAllocRefInst ⟨t⟩ = .ok () ↔
      (t.hasReferenceSemantics = true ∧ t.isAddress = false) := by
    simp [visitAllocRefInst, silAssert_ok]
  have hd : visitDeallocRefInst ⟨⟨t⟩⟩ = .ok () ↔
      (t.hasReferenceSemantics = true ∧ t.isAddress = false) := by
    simp [visitDeallocRefInst, exceptBind_ok, silAssert_ok, and_comm]
  refine ⟨hr, hl, ha, hd, ?_⟩
  intro hbad
  have hno : ¬(t.hasReferenceSemantics = true ∧ t.isAddress = false) := by
    rcases hbad with hb | hb <;> simp [hb]
  exact ⟨fun hc => hno (hr.mp hc), fun hc => hno (hl.mp hc),
         fun hc => hno (ha.mp hc), fun hc => hno (hd.mp hc)⟩

/-- C9 witness: a retain of an address of class type, and a retain of a
non-address integer, are both rejected; a retain of a class value is
accepted. -/
theorem claim_C9_witness :
    visitRetainInst ⟨⟨⟨.classTy 0, true⟩⟩⟩ ≠ .ok () ∧
    visitRetainInst ⟨⟨⟨.builtinInteger 64, false⟩⟩⟩ ≠ .ok () ∧
    visitRetainInst ⟨⟨⟨.classTy 0, false⟩⟩⟩ = .ok () :=
  ⟨((claim_C9_reference_semantics_exclusivity ⟨.classTy 0, true⟩).2.2.2.2
      (Or.inl rfl)).1,
   ((claim_C9_reference_semantics_exclusivity
      ⟨.builtinInteger 64, false⟩).2.2.2.2 (Or.inr rfl)).1,
   (claim_C9_reference_semantics_exclusivity ⟨.classTy 0, false⟩).1.mpr
      ⟨rfl, rfl⟩⟩

/-- C6: the return rule rejects an instruction exactly when its return
value is absent; a present return value is accepted even when its type
differs from the enclosing function's declared result type (that
cross-check is commented out in the source). -/
theorem claim_C6_return_rule :
    (∀ ri : ReturnInst,
      (visitReturnInst ri = .ok () ↔ ri.returnValue.isSome = true)) ∧
    (∀ (v : Value) (funcResultTy : SILType), v.type ≠ funcResultTy →
      visitReturnInst ⟨some v⟩ = .ok ()) := by
  constructor
  · intro ri; simp [visitReturnInst, silAssert_ok]
  · intro v funcResultTy _; simp [visitReturnInst, silAssert_ok]

/-- C6 witness: a return of an integer value from a function whose
declared result type is a different integer type is accepted. -/
theorem claim_C6_witness :
    visitReturnInst ⟨some ⟨⟨.builtinInteger 1, false⟩⟩⟩ = .ok () :=
  claim_C6_return_rule.2 ⟨⟨.builtinInteger 1, false⟩⟩
    ⟨.builtinInteger 64, false⟩ (by decide)

/-- C8: a store of a value of the pointee type to an address followed by
a load from that address both pass, the load producing the pointee type;
and the load rule accepts exactly an address source, a non-address
result, and a result type equal to the pointee type. -/
theorem claim_C8_load_store_roundtrip :
    (∀ (a v : Value) (T : SILType),
      a.type.isAddress = true → a.type.getObjectType = T → v.type = T →
      (visitStoreInst ⟨v, a⟩ = .ok () ∧ visitLoadInst ⟨a, T⟩ = .ok ())) ∧
    (∀ li : LoadInst,
      visitLoadInst li = .ok () ↔
        (li.lvalue.type.isAddress = true ∧ li.type.isAddress = false ∧
         li.lvalue.type.getObjectType = li.type)) := by
  constructor
  · intro a v T ha hT hv
    have hTaddr : T.isAddress = false := by
      rw [← hT]; exact getObjectType_isAddress a.type
    constructor
    · exact (visitStoreInst_ok ⟨v, a⟩).mpr ⟨by rw [hv]; exact hTaddr, ha,
        by rw [hT, hv]⟩
    · exact (visitLoadInst_ok ⟨a, T⟩).mpr ⟨hTaddr, ha, hT⟩
  · intro li
    rw [visitLoadInst_ok]
    tauto

/-- C8 witness: storing a 64-bit integer to an address of that type and
loading it back both pass. -/
theorem claim_C8_witness :
    visitStoreInst ⟨⟨⟨.builtinInteger 64, false⟩⟩,
                    ⟨⟨.builtinInteger 64, true⟩⟩⟩ = .ok () ∧
    visitLoadInst ⟨⟨⟨.builtinInteger 64, true⟩⟩,
                   ⟨.builtinInteger 64, false⟩⟩ = .ok () :=
  claim_C8_load_store_roundtrip.1 ⟨⟨.builtinInteger 64, true⟩⟩
    ⟨⟨.builtinInteger 64, false⟩⟩ ⟨.builtinInteger 64, false⟩ rfl rfl rfl

/-- C3: contrary to the claim, the archetype-to-concrete upcast rule does
not require the operand to be an address: an operand whose type is a
non-address address-only archetype is accepted (the source checks
isAddressOnly, not isAddress, although its assert message reads
"operand must be an address"). -/
theorem claim_C3_nonaddress_operand_accepted :
    SILType.isAddress ⟨.archetypeTy 0, false⟩ = false ∧
    visitArchetypeToSuperInst
      ⟨⟨⟨.archetypeTy 0, false⟩⟩, ⟨.classTy 0, false⟩⟩ = .ok () :=
  ⟨rfl, rfl⟩

/-- C4: contrary to the claim, the concrete-to-archetype downcast rule
does not require the destination to be an address: a destination whose
type is a non-address archetype is accepted together with a class-typed
source (the source checks only the archetype shape, although its assert
message reads "dest must be an archetype address"). -/
theorem claim_C4_nonaddress_dest_accepted :
    SILType.isAddress ⟨.archetypeTy 0, false⟩ = false ∧
    visitSuperToArchetypeInst
      ⟨⟨⟨.classTy 0, false⟩⟩, ⟨⟨.archetypeTy 0, false⟩⟩⟩ = .ok () :=
  ⟨rfl, rfl⟩

/-- C2: the generic position check accepts an instruction exactly when
being a terminator coincides with being the last instruction of the
block; consequently a non-empty block passes all position checks iff its
last instruction is a terminator and no earlier instruction is one. -/
theorem claim_C2_terminator_position :
    ∀ bb : List InstKind,
      (∀ i : Fin bb.length,
        (checkPosition bb i = .ok () ↔
          ((bb.get i).isTerminator = true ↔ i.val + 1 = bb.length))) ∧
      (∀ h : bb ≠ [],
        (blockPositionsOk bb ↔
          ((bb.getLast h).isTerminator = true ∧
           ∀ i : Fin bb.length, i.val + 1 ≠ bb.length →
             (bb.get i).isTerminator = false))) := by
  intro bb
  have hpt : ∀ i : Fin bb.length,
      (checkPosition bb i = .ok () ↔
        ((bb.get i).isTerminator = true ↔ i.val + 1 = bb.length)) := by
    intro i
    have hne : bb.length ≠ 0 := Nat.pos_iff_ne_zero.mp i.pos
    cases hb : (bb.get i).isTerminator with
    | false =>
      simp only [List.get_eq_getElem] at hb
      simp [checkPosition, hb, exceptBind_ok, silAssertPos_ok, hne]
    | true =>
      simp only [List.get_eq_getElem] at hb
      simp [checkPosition, hb, silAssertPos_ok]
  refine ⟨hpt, ?_⟩
  intro h
  have hlt : bb.length - 1 < bb.length := by
    have := List.length_pos.mpr h
    omega
  have hglast : bb.get ⟨bb.length - 1, hlt⟩ = bb.getLast h :=
    List.get_length_sub_one hlt
  constructor
  · intro hall
    have h1 := (hpt ⟨bb.length - 1, hlt⟩).mp (hall ⟨bb.length - 1, hlt⟩)
    have heq : (bb.length - 1) + 1 = bb.length := by omega
    constructor
    · rw [← hglast]
      exact h1.mpr heq
    · intro i hi
      have h2 := (hpt i).mp (hall i)
      cases hbi : (bb.get i).isTerminator with
      | false => rfl
      | true => exact absurd (h2.mp hbi) hi
  · rintro ⟨hlast, hrest⟩ i
    apply (hpt i).mpr
    by_cases hi : i.val + 1 = bb.length
    · refine ⟨fun _ => hi, fun _ => ?_⟩
      have hieq : i = ⟨bb.length - 1, hlt⟩ :=
        Fin.ext (show i.val = bb.length - 1 by omega)
      rw [hieq, hglast]
      exact hlast
    · exact ⟨fun hterm => absurd ((hrest i hi).symm.trans hterm) (by decide),
             fun hcontra => absurd hcontra hi⟩

/-- C2 witness: a load followed by a branch passes the position checks; a
branch followed by a load, and a block with no terminator, do not. -/
theorem claim_C2_witness :
    blockPositionsOk [InstKind.load, InstKind.branch] ∧
    ¬ blockPositionsOk [InstKind.branch, InstKind.load] ∧
    ¬ blockPositionsOk [InstKind.load, InstKind.store] := by
  refine ⟨?_, fun hok => ?_, fun hok => ?_⟩
  · exact ((claim_C2_terminator_position
      [InstKind.load, InstKind.branch]).2 (by decide)).mpr
      ⟨by decide, by decide⟩
  · exact absurd (((claim_C2_terminator_position
      [InstKind.branch, InstKind.load]).2 (by decide)).mp hok).1 (by decide)
  · exact absurd (((claim_C2_terminator_position
      [InstKind.load, InstKind.store]).2 (by decide)).mp hok).1 (by decide)

lemma checkArgTypes_ok :
    ∀ (args : List Value) (ts : List SILType),
      checkArgTypes args ts = .ok () ↔ args.map Value.type = ts := by
  intro args
  induction args with
  | nil => intro ts; cases ts <;> simp [checkArgTypes]
  | cons a args ih =>
    intro ts
    cases ts with
    | nil => simp [checkArgTypes]
    | cons t ts =>
      by_cases h : a.type = t <;> simp [checkArgTypes, h, ih]

lemma visitApplyInst_ok (sig : SILType → Option SILFunctionTypeInfo)
    (ai : ApplyInst) (ti : SILFunctionTypeInfo)
    (hsig : sig ai.callee.type = some ti) :
    visitApplyInst sig ai = .ok () ↔
      (ai.callee.type.isAddress = false ∧
       ai.callee.type.isFunctionType = true ∧
       ai.arguments.length = ti.inputTypes.length ∧
       ai.arguments.map Value.type = ti.inputTypes ∧
       ai.type = ti.resultType) := by
  simp [visitApplyInst, hsig, exceptBind_ok, silAssert_ok, checkArgTypes_ok]

lemma map_type_eq_iff (args : List Value) (ts : List SILType) :
    args.map Value.type = ts ↔
      (args.length = ts.length ∧
       ∀ (i : Fin args.length) (hi : i.val < ts.length),
         (args.get i).type = ts.get ⟨i.val, hi⟩) := by
  constructor
  · intro h
    subst h
    simp
  · rintro ⟨hlen, hpt⟩
    apply List.ext_getElem (by simpa using hlen)
    intro i h1 h2
    have h3 : i < args.length := by simpa using h1
    have := hpt ⟨i, h3⟩ h2
    simpa using this

lemma get_congr (l l2 : List SILType) (h : l = l2) (i : Nat)
    (hi : i < l.length) (hi2 : i < l2.length) :
    l.get ⟨i, hi⟩ = l2.get ⟨i, hi2⟩ := by
  subst h
  rfl

/-- C1: for an apply whose callee is a non-address value of concrete
function type with a resolved signature, the rule accepts exactly when
the argument count equals the input count, every argument type equals the
input type at the same position, and the result type equals the
signature's result type; swapping two inputs of differing types in the
argument list is rejected. -/
theorem claim_C1_apply_rule :
    ∀ (sig : SILType → Option SILFunctionTypeInfo) (ai : ApplyInst)
      (ti : SILFunctionTypeInfo),
      ai.callee.type.isAddress = false →
      ai.callee.type.isFunctionType = true →
      sig ai.callee.type = some ti →
      ((visitApplyInst sig ai = .ok () ↔
         (ai.arguments.length = ti.inputTypes.length ∧
          (∀ (i : Fin ai.arguments.length)
             (hi : i.val < ti.inputTypes.length),
            (ai.arguments.get i).type = ti.inputTypes.get ⟨i.val, hi⟩) ∧
          ai.type = ti.resultType)) ∧
       (∀ (i j : Fin ti.inputTypes.length), i.val ≠ j.val →
          ti.inputTypes.get i ≠ ti.inputTypes.get j →
          ai.arguments.map Value.type =
            (ti.inputTypes.set i.val (ti.inputTypes.get j)).set j.val
              (ti.inputTypes.get i) →
          visitApplyInst sig ai ≠ .ok ())) := by
  intro sig ai ti hna hfn hsig
  have hmain : visitApplyInst sig ai = .ok () ↔
      (ai.arguments.length = ti.inputTypes.length ∧
       ai.arguments.map Value.type = ti.inputTypes ∧
       ai.type = ti.resultType) := by
    rw [visitApplyInst_ok sig ai ti hsig]
    simp [hna, hfn]
  constructor
  · rw [hmain, map_type_eq_iff]
    constructor
    · rintro ⟨hlen, ⟨_, hpt⟩, hres⟩
      exact ⟨hlen, hpt, hres⟩
    · rintro ⟨hlen, hpt, hres⟩
      exact ⟨hlen, ⟨hlen, hpt⟩, hres⟩
  · intro i j hij hne hswap hok
    obtain ⟨hlen, hmap, _⟩ := hmain.mp hok
    have hinputs : ti.inputTypes =
        (ti.inputTypes.set i.val (ti.inputTypes.get j)).set j.val
          (ti.inputTypes.get i) := hmap.symm.trans hswap
    have hival : i.val < ((ti.inputTypes.set i.val
        (ti.inputTypes.get j)).set j.val (ti.inputTypes.get i)).length := by
      simp only [List.length_set]
      exact i.isLt
    have hs : ((ti.inputTypes.set i.val (ti.inputTypes.get j)).set j.val
        (ti.inputTypes.get i)).get ⟨i.val, hival⟩ = ti.inputTypes.get j := by
      simp only [List.get_eq_getElem]
      rw [List.getElem_set_ne (Ne.symm hij), List.getElem_set_self]
    have hii : ti.inputTypes.get i = ti.inputTypes.get j := by
      have := get_congr ti.inputTypes
        ((ti.inputTypes.set i.val (ti.inputTypes.get j)).set j.val
          (ti.inputTypes.get i)) hinputs i.val i.isLt hival
      rw [hs] at this
      simpa using this
    exact hne hii

/-- C1 witness: a call of a callee of type (Int64, Class0) -> Int64 with
arguments of exactly those types and result Int64 is accepted. -/
theorem claim_C1_witness :
    visitApplyInst
      (fun t =>
        if t = ⟨.functionTy (.tupleTy 2) (.builtinInteger 64), false⟩ then
          some ⟨[⟨.builtinInteger 64, false⟩, ⟨.classTy 0, false⟩],
                ⟨.builtinInteger 64, false⟩⟩
        else none)
      ⟨⟨⟨.functionTy (.tupleTy 2) (.builtinInteger 64), false⟩⟩,
       [⟨⟨.builtinInteger 64, false⟩⟩, ⟨⟨.classTy 0, false⟩⟩],
       ⟨.builtinInteger 64, false⟩⟩ = .ok () := by
  apply (claim_C1_apply_rule
    (fun t =>
      if t = ⟨.functionTy (.tupleTy 2) (.builtinInteger 64), false⟩ then
        some ⟨[⟨.builtinInteger 64, false⟩, ⟨.classTy 0, false⟩],
              ⟨.builtinInteger 64, false⟩⟩
      else none)
    ⟨⟨⟨.functionTy (.tupleTy 2) (.builtinInteger 64), false⟩⟩,
     [⟨⟨.builtinInteger 64, false⟩⟩, ⟨⟨.classTy 0, false⟩⟩],
     ⟨.builtinInteger 64, false⟩⟩
    ⟨[⟨.builtinInteger 64, false⟩, ⟨.classTy 0, false⟩],
     ⟨.builtinInteger 64, false⟩⟩ rfl rfl (by decide)).1.mpr
  refine ⟨rfl, ?_, rfl⟩
  intro i hi
  fin_cases i <;> rfl

/-- C5: for an apply whose callee passes the address and shape checks but
whose Callable Signature cannot be resolved, the checker reports the
unrecoverable-shape error, a constructor distinct from the ordinary
invariant-violation and malformed-block outcomes. -/
theorem claim_C5_unresolvable_signature_fatal :
    ∀ (sig : SILType → Option SILFunctionTypeInfo) (ai : ApplyInst),
      ai.callee.type.isAddress = false →
      ai.callee.type.isFunctionType = true →
      sig ai.callee.type = none →
      (visitApplyInst sig ai = .error .unrecoverableShape ∧
       VerifyError.unrecoverableShape ≠ VerifyError.typeViolation ∧
       VerifyError.unrecoverableShape ≠ VerifyError.malformedBlock) := by
  intro sig ai hna hfn hsig
  refine ⟨?_, by decide, by decide⟩
  simp [visitApplyInst, hsig, silAssert, hna, hfn, Bind.bind, Except.bind,
    callableSignatureUnresolved]

/-- C5 witness: a signature provider that resolves nothing makes the
apply check of a well-shaped callee report the unrecoverable error. -/
theorem claim_C5_witness :
    visitApplyInst (fun _ => none)
      ⟨⟨⟨.functionTy (.builtinInteger 1) (.builtinInteger 1), false⟩⟩, [],
       ⟨.builtinInteger 1, false⟩⟩ = .error .unrecoverableShape :=
  (claim_C5_unresolvable_signature_fatal (fun _ => none)
    ⟨⟨⟨.functionTy (.builtinInteger 1) (.builtinInteger 1), false⟩⟩, [],
     ⟨.builtinInteger 1, false⟩⟩ rfl rfl rfl).1

/-- C7: the archetype-method rule accepts exactly when the result type is
a concrete function type whose declared input structurally equals the
operand's underlying type, whose declared result is itself a function
type, and the operand is an address of archetype shape or a metatype of
archetype instance type; once those function-type checks pass, an operand
that is neither an address nor a metatype yields the unrecoverable-shape
error rather than an ordinary violation. -/
theorem claim_C7_archetype_method_rule :
    ∀ ami : ArchetypeMethodInst,
      ((visitArchetypeMethodInst ami = .ok ()) ↔
        (∃ methodInput methodResult,
          ami.type0.getAsFunctionType = some (methodInput, methodResult) ∧
          methodInput = ami.operand.type.getSwiftType ∧
          methodResult.isFunctionTy = true ∧
          ((ami.operand.type.isAddress = true ∧
            ami.operand.type.isArchetypeType = true) ∨
           (ami.operand.type.isAddress = false ∧
            ∃ instanceTy,
              ami.operand.type.getAsMetaTypeType = some instanceTy ∧
              instanceTy.isArchetypeTy = true)))) ∧
      (∀ methodInput methodResult,
        ami.type0.getAsFunctionType = some (methodInput, methodResult) →
        methodInput = ami.operand.type.getSwiftType →
        methodResult.isFunctionTy = true →
        ami.operand.type.isAddress = false →
        ami.operand.type.getAsMetaTypeType = none →
        visitArchetypeMethodInst ami = .error .unrecoverableShape) := by
  intro ami
  cases hf : ami.type0.getAsFunctionType with
  | none =>
    constructor
    · simp [visitArchetypeMethodInst, hf]
    · intro mi mr hc
      exact absurd hc (by simp)
  | some p =>
    obtain ⟨mi, mr⟩ := p
    have hunfold : visitArchetypeMethodInst ami = (do
        silAssert (mi = ami.operand.type.getSwiftType)
        silAssert (mr.isFunctionTy = true)
        if ami.operand.type.isAddress then
          silAssert (ami.operand.type.isArchetypeType = true)
        else
          match ami.operand.type.getAsMetaTypeType with
          | some instanceTy => silAssert (instanceTy.isArchetypeTy = true)
          | none => .error .unrecoverableShape) := by
      simp [visitArchetypeMethodInst, hf]
    have hcore : visitArchetypeMethodInst ami = .ok () ↔
        (mi = ami.operand.type.getSwiftType ∧ mr.isFunctionTy = true ∧
         ((ami.operand.type.isAddress = true ∧
           ami.operand.type.isArchetypeType = true) ∨
          (ami.operand.type.isAddress = false ∧
           ∃ instanceTy,
             ami.operand.type.getAsMetaTypeType = some instanceTy ∧
             instanceTy.isArchetypeTy = true))) := by
      rw [hunfold]
      cases ha : ami.operand.type.isAddress with
      | true => simp [ha, exceptBind_ok, silAssert_ok]
      | false =>
        cases hm : ami.operand.type.getAsMetaTypeType with
        | none => simp [ha, hm, exceptBind_ok, silAssert_ok]
        | some instanceTy => simp [ha, hm, exceptBind_ok, silAssert_ok]
    constructor
    · rw [hcore]
      constructor
      · rintro ⟨h1, h2, h3⟩
        exact ⟨mi, mr, rfl, h1, h2, h3⟩
      · rintro ⟨a, b, hab, h1, h2, h3⟩
        have hpair := Option.some.inj hab
        have hA : mi = a := congrArg Prod.fst hpair
        have hB : mr = b := congrArg Prod.snd hpair
        subst hA
        subst hB
        exact ⟨h1, h2, h3⟩
    · intro mi2 mr2 hc hin hres ha hm
      have hpair := Option.some.inj hc
      have hA : mi = mi2 := congrArg Prod.fst hpair
      have hB : mr = mr2 := congrArg Prod.snd hpair
      subst hA
      subst hB
      rw [hunfold]
      simp [hin, hres, ha, hm, silAssert, Bind.bind, Except.bind]

/-- C7 witness: with the function-type checks satisfied, a class-typed
operand (neither an address nor a metatype) produces the
unrecoverable-shape error, while an archetype-metatype operand is
accepted. -/
theorem claim_C7_witness :
    visitArchetypeMethodInst
      ⟨⟨⟨.classTy 0, false⟩⟩,
       ⟨.functionTy (.classTy 0)
          (.functionTy (.builtinInteger 1) (.builtinInteger 1)), false⟩⟩ =
      .error .unrecoverableShape ∧
    visitArchetypeMethodInst
      ⟨⟨⟨.metaTy (.archetypeTy 0), false⟩⟩,
       ⟨.functionTy (.metaTy (.archetypeTy 0))
          (.functionTy (.builtinInteger 1) (.builtinInteger 1)), false⟩⟩ =
      .ok () :=
  ⟨(claim_C7_archetype_method_rule
      ⟨⟨⟨.classTy 0, false⟩⟩,
       ⟨.functionTy (.classTy 0)
          (.functionTy (.builtinInteger 1) (.builtinInteger 1)), false⟩⟩).2
      (.classTy 0) (.functionTy (.builtinInteger 1) (.builtinInteger 1))
      rfl rfl rfl rfl rfl,
   (claim_C7_archetype_method_rule
      ⟨⟨⟨.metaTy (.archetypeTy 0), false⟩⟩,
       ⟨.functionTy (.metaTy (.archetypeTy 0))
          (.functionTy (.builtinInteger 1) (.builtinInteger 1)), false⟩⟩).1.mpr
      ⟨.metaTy (.archetypeTy 0),
       .functionTy (.builtinInteger 1) (.builtinInteger 1), rfl, rfl, rfl,
       Or.inr ⟨rfl, .archetypeTy 0, rfl, rfl⟩⟩⟩
